import Mathlib

/-!
Verification of the wasender webhook subsystem: the signature verifier,
the webhook entry point used by the test suite, the event taxonomy, and
the payload normaliser of the webhook test server, embedded shallowly
from the TypeScript sources.
-/

/-- JSON values, as produced by the host JSON parser for inbound webhook
bodies.  Numbers are modelled as integers: every numeric field of the
webhook payloads considered here (timestamps, counts) is integral. -/
inductive Json where
  | null : Json
  | bool : Bool → Json
  | num : Int → Json
  | str : String → Json
  | arr : List Json → Json
  | obj : List (String × Json) → Json

/-- Property access `o.k` on a JSON value: defined for objects, absent
(undefined) on every other shape, mirroring JavaScript field access on
parsed JSON data. -/
def Json.getField : Json → String → Option Json
  | .obj fields, k => fields.lookup k
  | _, _ => none

namespace Webhook

/-- The header name constant `WEBHOOK_SIGNATURE_HEADER` from src/webhook.ts. -/
def WEBHOOK_SIGNATURE_HEADER : String := "x-webhook-signature"

/-- `verifyWasenderWebhookSignature` from src/webhook.ts (v0.3.2).
The request signature is `string | undefined | null`, embedded as
`Option String`; JavaScript falsiness of a string is equality with the
empty string. -/
def verifyWasenderWebhookSignature
    (requestSignature : Option String) (configuredSecret : String) : Bool :=
  match requestSignature with
  | none => false
  | some s =>
    if s == "" || configuredSecret == "" then false
    else s == configuredSecret

/-- The sixteen members of the `WasenderWebhookEventType` enum of
src/webhook.ts (v0.3.2), in source order. -/
def knownEventTypes : List String :=
  [ "chats.upsert", "chats.update", "chats.delete",
    "groups.upsert", "groups.update", "group-participants.update",
    "contacts.upsert", "contacts.update",
    "messages.upsert", "messages.update", "messages.delete", "messages.reaction",
    "message-receipt.update",
    "message.sent", "session.status", "qrcode.updated" ]

end Webhook

namespace Channel

/-- `verifyWasenderWebhookSignature` as duplicated inside src/channel.ts
(the v0.1.0 copy); its body is the same guard followed by the same
string comparison. -/
def verifyWasenderWebhookSignature
    (requestSignature : Option String) (configuredSecret : String) : Bool :=
  match requestSignature with
  | none => false
  | some s =>
    if s == "" || configuredSecret == "" then false
    else s == configuredSecret

/-- The string values of the `WasenderWebhookEventType` const object of
src/channel.ts, in source order. -/
def eventTypeValues : List String :=
  [ "chats.upsert", "chats.update", "chats.delete",
    "groups.upsert", "groups.update", "group-participants.update",
    "contacts.upsert", "contacts.update",
    "messages.upsert", "messages.update", "messages.delete", "messages.reaction",
    "message-receipt.update",
    "message.sent", "session.status", "qrcode.updated" ]

end Channel

namespace Server

/-- The comparison performed by `verifySignature` in the webhook test
server script, as a function of the extracted header value and the
secret read from the environment: same missing/empty guard, same string
equality. -/
def verifySignature (signature : Option String) (secretFromEnv : String) : Bool :=
  match signature with
  | none => false
  | some s =>
    if s == "" || secretFromEnv == "" then false
    else s == secretFromEnv

end Server

namespace Tests

/-- The shared secret `SECRET` of tests/webhook.ts. -/
def SECRET : String := "shh!"

/-- `MockRequest` of tests/webhook.ts: a header map plus the value the
`json()` body read resolves to. -/
structure MockRequest where
  headers : List (String × String)
  body : Json

/-- `makeReq` of tests/webhook.ts: the signature header is set only when
the optional signature argument is present and truthy (a present empty
string is falsy in JavaScript and sets no header). -/
def makeReq (body : Json) (signature : Option String) : MockRequest :=
  { headers :=
      match signature with
      | some s => if s == "" then [] else [(Webhook.WEBHOOK_SIGNATURE_HEADER, s)]
      | none => []
    body := body }

/-- Header lookup `req.headers[name]`. -/
def getHeader (req : MockRequest) (name : String) : Option String :=
  req.headers.lookup name

/-- `handleWebhook` of tests/webhook.ts: read the signature header,
throw `Invalid signature` unless the verifier accepts it, otherwise
return the JSON body unchanged. -/
def handleWebhook (req : MockRequest) : Except String Json :=
  let signature := getHeader req Webhook.WEBHOOK_SIGNATURE_HEADER
  if !Webhook.verifyWasenderWebhookSignature signature SECRET then
    Except.error "Invalid signature"
  else
    Except.ok req.body

/-- `handleWebhook` instrumented with the number of times the request
body read `req.json()` is invoked along the taken path. -/
def handleWebhookTraced (req : MockRequest) : Except String Json × Nat :=
  let signature := getHeader req Webhook.WEBHOOK_SIGNATURE_HEADER
  if !Webhook.verifyWasenderWebhookSignature signature SECRET then
    (Except.error "Invalid signature", 0)
  else
    (Except.ok req.body, 1)

end Tests

/-! ## JSON codec

Modelled from the spec: the JSON encoding and decoding steps of the
inbound webhook contract (the host runtime codec used by the transport,
`JSON.stringify` / `JSON.parse`, resp. `express.json()`) are not part of
the repository sources; they are modelled here, restricted to the JSON
fragment the webhook payloads use (integer numerals, the standard
one-character escapes). -/

/-- Escape sequence emitted for one character of a JSON string
literal: quote, backslash and the whitespace controls get a
two-character escape, everything else stands for itself. -/
def escSeq (c : Char) : List Char :=
  if c == '"' || c == '\\' then ['\\', c]
  else if c == '\n' then ['\\', 'n']
  else if c == '\t' then ['\\', 't']
  else if c == '\r' then ['\\', 'r']
  else [c]

/-- Escape every character of a string body. -/
def escAll (cs : List Char) : List Char :=
  cs.foldr (fun c out => escSeq c ++ out) []

/-- Emit a quoted JSON string literal. -/
def quoteStr (s : String) : List Char :=
  '"' :: escAll s.data ++ ['"']

mutual

/-- Serialize a JSON value to characters, in the compact style of the
host serializer: no whitespace, object keys kept in insertion order. -/
def Json.stringifyChars : Json → List Char
  | .null => "null".data
  | .bool b => (cond b "true" "false").data
  | .num n => (toString n).data
  | .str s => quoteStr s
  | .arr xs => '[' :: emitElems xs ++ [']']
  | .obj fs => '{' :: emitFields fs ++ ['}']

/-- Serialize array elements, comma separated. -/
def emitElems : List Json → List Char
  | [] => []
  | [x] => Json.stringifyChars x
  | x :: y :: xs => Json.stringifyChars x ++ ',' :: emitElems (y :: xs)

/-- Serialize object members, comma separated. -/
def emitFields : List (String × Json) → List Char
  | [] => []
  | [(k, v)] => quoteStr k ++ ':' :: Json.stringifyChars v
  | (k, v) :: m :: fs => quoteStr k ++ ':' :: Json.stringifyChars v ++ ',' :: emitFields (m :: fs)

end

/-- Serialize a JSON value to a string. -/
def Json.stringify (j : Json) : String :=
  String.mk j.stringifyChars

/-- JSON insignificant whitespace. -/
def jsonWs (c : Char) : Bool :=
  c == ' ' || c == '\t' || c == '\n' || c == '\r'

/-- Drop leading insignificant whitespace. -/
def dropSpace (cs : List Char) : List Char :=
  cs.dropWhile jsonWs

/-- Strip an expected literal character sequence from the front of the
input, yielding the remainder. -/
def litPrefix : List Char → List Char → Option (List Char)
  | [], cs => some cs
  | l :: ls, c :: cs => if c == l then litPrefix ls cs else none
  | _ :: _, [] => none

/-- Decode a one-character escape of a JSON string literal. -/
def decodeEsc (c : Char) : Char :=
  if c == 'n' then '\n'
  else if c == 't' then '\t'
  else if c == 'r' then '\r'
  else c

/-- Consume the body of a JSON string literal after its opening quote,
up to and including the closing quote. -/
def strTail (acc : List Char) : List Char → Option (String × List Char)
  | [] => none
  | '\\' :: e :: more => strTail (decodeEsc e :: acc) more
  | c :: more =>
    if c == '"' then some (String.mk acc.reverse, more)
    else strTail (c :: acc) more

/-- Consume a run of decimal digits, extending the accumulator. -/
def digitsTail : List Char → Nat → Nat × List Char
  | c :: cs, n =>
    if c.isDigit then digitsTail cs (10 * n + (c.toNat - 48))
    else (n, c :: cs)
  | [], n => (n, [])

mutual

/-- Parse one JSON value.  The fuel argument only bounds the recursion
depth; the top-level entry point passes more fuel than the input
length, which one opening bracket per recursive call makes
sufficient. -/
def jsonVal : Nat → List Char → Option (Json × List Char)
  | 0, _ => none
  | fuel + 1, input =>
    match dropSpace input with
    | [] => none
    | c :: cs =>
      if c == 'n' then do
        let rest ← litPrefix ['u', 'l', 'l'] cs
        pure (Json.null, rest)
      else if c == 't' then do
        let rest ← litPrefix ['r', 'u', 'e'] cs
        pure (Json.bool true, rest)
      else if c == 'f' then do
        let rest ← litPrefix ['a', 'l', 's', 'e'] cs
        pure (Json.bool false, rest)
      else if c == '"' then do
        let (s, rest) ← strTail [] cs
        pure (Json.str s, rest)
      else if c == '-' then
        match cs with
        | d :: ds =>
          if d.isDigit then
            let (n, rest) := digitsTail ds (d.toNat - 48)
            some (Json.num (-(n : Int)), rest)
          else none
        | [] => none
      else if c == '[' then
        match dropSpace cs with
        | ']' :: rest => some (Json.arr [], rest)
        | inner => do
          let (xs, rest) ← arrTail fuel inner
          pure (Json.arr xs, rest)
      else if c == '{' then
        match dropSpace cs with
        | '}' :: rest => some (Json.obj [], rest)
        | inner => do
          let (ms, rest) ← objTail fuel inner
          pure (Json.obj ms, rest)
      else if c.isDigit then
        let (n, rest) := digitsTail cs (c.toNat - 48)
        some (Json.num (n : Int), rest)
      else none

/-- Parse the remaining elements of a non-empty array, up to and
including the closing bracket. -/
def arrTail : Nat → List Char → Option (List Json × List Char)
  | 0, _ => none
  | fuel + 1, input => do
    let (v, r1) ← jsonVal fuel input
    match dropSpace r1 with
    | ',' :: r2 => do
      let (vs, r3) ← arrTail fuel (dropSpace r2)
      pure (v :: vs, r3)
    | ']' :: r2 => pure ([v], r2)
    | _ => none

/-- Parse the remaining members of a non-empty object, up to and
including the closing brace. -/
def objTail : Nat → List Char → Option (List (String × Json) × List Char)
  | 0, _ => none
  | fuel + 1, input =>
    match dropSpace input with
    | '"' :: r0 => do
      let (k, r1) ← strTail [] r0
      match dropSpace r1 with
      | ':' :: r2 => do
        let (v, r3) ← jsonVal fuel (dropSpace r2)
        match dropSpace r3 with
        | ',' :: r4 => do
          let (ms, r5) ← objTail fuel (dropSpace r4)
          pure ((k, v) :: ms, r5)
        | '}' :: r4 => pure ([(k, v)], r4)
        | _ => none
      | _ => none
    | _ => none

end

/-- Parse a string as one JSON document. -/
def Json.parse (s : String) : Option Json :=
  let cs := s.data
  match jsonVal (cs.length + 1) cs with
  | some (v, rest) => if (dropSpace rest).isEmpty then some v else none
  | none => none

/-! ## JavaScript value helpers for the test-server decoder -/

/-- JavaScript truthiness of a JSON value. -/
def jsTruthy : Json → Bool
  | .null => false
  | .bool b => b
  | .num n => n != 0
  | .str s => s != ""
  | .arr _ => true
  | .obj _ => true

/-- Truthiness of a possibly absent value (`undefined` is falsy). -/
def truthyOpt : Option Json → Bool
  | none => false
  | some v => jsTruthy v

/-- The test `typeof x === 'object' && x !== null`, false for an absent
value. -/
def isObjectLike : Option Json → Bool
  | some (.arr _) => true
  | some (.obj _) => true
  | _ => false

/-- The test `Array.isArray(x)`, false for an absent value. -/
def isArrayOpt : Option Json → Bool
  | some (.arr _) => true
  | _ => false

/-- The test `typeof x === 'string'`, false for an absent value. -/
def isStringOpt : Option Json → Bool
  | some (.str _) => true
  | _ => false

/-- Optional-chaining field access `x?.k`. -/
def getOpt (o : Option Json) (k : String) : Option Json :=
  match o with
  | some v => v.getField k
  | none => none

namespace Server

/-- The record returned by `normalisePayload` in the webhook test
server: `{ type, data: any[], sessionId?, timestamp? }`.  The
discriminant slot holds whatever JSON value the decoder selected (always
a string on the paths the script exercises). -/
structure Normalised where
  type : Json
  data : List Json
  sessionId : Option Json
  timestamp : Option Json

/-- `toArray` of the webhook test server: undefined and null become the
empty array, arrays pass through, anything else is wrapped in a
singleton array. -/
def toArray (x : Option Json) : List Json :=
  match x with
  | none => []
  | some .null => []
  | some (.arr xs) => xs
  | some v => [v]

/-- The `switch (eventType)` of `normalisePayload` selecting, per
discriminant, which nested value of the raw `data` object is the
event-specific payload (`dataToProcess`); the default case keeps the raw
`data` object itself. -/
def extractData (eventType : Json) (d : Json) : Option Json :=
  match eventType with
  | .str t =>
    if t == "messages.upsert" || t == "messages.update" || t == "messages.delete" then
      d.getField "messages"
    else if t == "messages.reaction" then
      d.getField "message"
    else if t == "chats.upsert" || t == "chats.update" then
      if truthyOpt (d.getField "chats") then d.getField "chats" else d.getField "chat"
    else if t == "contacts.upsert" || t == "contacts.update" then
      d.getField "contacts"
    else some d
  | _ => some d

/-- First member of a JSON object, `Object.keys(raw)[0]` paired with its
value; absent for an empty object.  The inbound webhook contract only
ever presents object bodies, so non-object values are treated as having
no keys. -/
def firstKeyField : Json → Option (String × Json)
  | .obj ((k, v) :: _) => some (k, v)
  | _ => none

/-- The legacy fallback branch of `normalisePayload`: infer the event
kind from the first key of the body when the standard
`\x7b event, data \x7d` structure is absent. -/
def fallbackResult (raw : Json) (sessionId eventTimestamp : Option Json) : Normalised :=
  match firstKeyField raw with
  | none => ⟨.str "unknown:empty", [], sessionId, eventTimestamp⟩
  | some (k, v) =>
    let inferred : Json × Option Json :=
      if k == "messages" then
        if truthyOpt (getOpt (getOpt (some v) "message") "reactionMessage") then
          (.str "messages.upsert", some v)
        else if isArrayOpt (some v) then
          (.str "messages.update", some v)
        else if truthyOpt ((some v).bind (fun x => x.getField "keys"))
            && isArrayOpt (getOpt (some v) "keys") then
          (.str "messages.delete", some v)
        else if jsTruthy v then
          (.str "messages.upsert", some v)
        else
          (.str ("unknown:" ++ k), some v)
      else if k == "message" && truthyOpt (getOpt (some v) "reaction") then
        (.str "messages.reaction", some v)
      else if k == "contacts" then
        if isArrayOpt (some v) then (.str "contacts.upsert", some v)
        else (.str "contacts.update", some v)
      else if k == "chats" then (.str "chats.upsert", some v)
      else if k == "chat" then (.str "chats.update", some v)
      else if k == "qr" && isStringOpt (some v) then (.str "qrcode.updated", some raw)
      else if k == "status" && isStringOpt (some v) then (.str "session.status", some raw)
      else (.str ("unknown:" ++ k), some v)
    ⟨inferred.1, toArray inferred.2, sessionId, eventTimestamp⟩

/-- `normalisePayload` of the webhook test server: when the body has a
truthy `event` field and an object-typed `data` field, the discriminant
is the `event` value and the payload is the discriminant-directed
extraction from `data`, array-normalized; otherwise the legacy fallback
inference runs.  In both cases the returned `data` is always an array. -/
def normalisePayload (raw : Json) : Normalised :=
  let sessionId := raw.getField "sessionId"
  let eventTimestamp := raw.getField "timestamp"
  match raw.getField "event", raw.getField "data" with
  | some ev, some d =>
    if jsTruthy ev && isObjectLike (some d) then
      ⟨ev, toArray (extractData ev d), sessionId, eventTimestamp⟩
    else fallbackResult raw sessionId eventTimestamp
  | _, _ => fallbackResult raw sessionId eventTimestamp

end Server

namespace Tests

/-! ## The well-formed event envelopes of tests/webhook.ts

One sample per event kind, transcribed field-for-field (in literal
order) from the payloads the jest suite feeds through `handleWebhook`. -/

/-- The `ChatsUpsertEvent` payload of the test suite. -/
def chatsUpsertSample : Json :=
  .obj [ ("event", .str "chats.upsert"),
         ("timestamp", .num 1633456789),
         ("data", .arr [ .obj [ ("id", .str "1234567890"),
                                ("name", .str "Contact Name"),
                                ("conversationTimestamp", .num 1633456789),
                                ("unreadCount", .num 2) ] ]),
         ("sessionId", .str "session-id-123") ]

/-- The `ChatsUpdateEvent` payload of the test suite. -/
def chatsUpdateSample : Json :=
  .obj [ ("event", .str "chats.update"),
         ("timestamp", .num 1633456789),
         ("data", .arr [ .obj [ ("id", .str "1234567890"),
                                ("unreadCount", .num 0),
                                ("conversationTimestamp", .num 1633456789) ] ]) ]

/-- The `ChatsDeleteEvent` payload of the test suite. -/
def chatsDeleteSample : Json :=
  .obj [ ("event", .str "chats.delete"),
         ("timestamp", .num 1633456789),
         ("data", .arr [ .str "1234567890" ]) ]

/-- The `GroupsUpsertEvent` payload of the test suite. -/
def groupsUpsertSample : Json :=
  .obj [ ("event", .str "groups.upsert"),
         ("timestamp", .num 1633456789),
         ("data", .arr [ .obj [ ("id", .str "123456789-987654321@g.us"),
                                ("subject", .str "Group Name"),
                                ("creation", .num 1633456700),
                                ("owner", .str "1234567890"),
                                ("desc", .str "Group description"),
                                ("participants",
                                 .arr [ .obj [ ("id", .str "1234567890"),
                                               ("admin", .str "superadmin") ],
                                        .obj [ ("id", .str "0987654321") ] ]) ] ]) ]

/-- The `GroupsUpdateEvent` payload of the test suite. -/
def groupsUpdateSample : Json :=
  .obj [ ("event", .str "groups.update"),
         ("timestamp", .num 1633456789),
         ("data", .arr [ .obj [ ("id", .str "123456789-987654321@g.us"),
                                ("announce", .bool true),
                                ("restrict", .bool false) ] ]) ]

/-- The `GroupParticipantsUpdateEvent` payload of the test suite. -/
def groupParticipantsUpdateSample : Json :=
  .obj [ ("event", .str "group-participants.update"),
         ("timestamp", .num 1633456789),
         ("data", .obj [ ("id", .str "123456789-987654321@g.us"),
                         ("participants", .arr [ .str "1234567890" ]),
                         ("action", .str "add") ]) ]

/-- The `ContactsUpsertEvent` payload of the test suite. -/
def contactsUpsertSample : Json :=
  .obj [ ("event", .str "contacts.upsert"),
         ("timestamp", .num 1633456789),
         ("data", .arr [ .obj [ ("id", .str "1234567890"),
                                ("name", .str "Contact Name"),
                                ("notify", .str "Contact Display Name"),
                                ("verifiedName", .str "Verified Business Name"),
                                ("status", .str "Hey there! I am using WhatsApp.") ] ]) ]

/-- The `ContactsUpdateEvent` payload of the test suite. -/
def contactsUpdateSample : Json :=
  .obj [ ("event", .str "contacts.update"),
         ("timestamp", .num 1633456789),
         ("data", .arr [ .obj [ ("id", .str "1234567890"),
                                ("imgUrl", .str "https://pps.whatsapp.net/v/t61.24694-24/123456789_123456789_123456789_123456789_123456789.jpg") ] ]) ]

/-- The `MessagesUpsertEvent` payload of the test suite. -/
def messagesUpsertSample : Json :=
  .obj [ ("event", .str "messages.upsert"),
         ("timestamp", .num 1633456789),
         ("data", .obj [ ("key", .obj [ ("id", .str "message-id-123"),
                                        ("fromMe", .bool false),
                                        ("remoteId", .str "+1234567890") ]),
                         ("message", .obj [ ("conversation", .str "Hello, I have a question") ]) ]) ]

/-- The `MessagesUpdateEvent` payload of the test suite. -/
def messagesUpdateSample : Json :=
  .obj [ ("event", .str "messages.update"),
         ("timestamp", .num 1633456795),
         ("data", .arr [ .obj [ ("key", .obj [ ("id", .str "message-id-456"),
                                               ("fromMe", .bool true),
                                               ("remoteId", .str "+1987654321") ]),
                                ("update", .obj [ ("status", .str "delivered") ]) ] ]) ]

/-- The `MessagesDeleteEvent` payload of the test suite. -/
def messagesDeleteSample : Json :=
  .obj [ ("event", .str "messages.delete"),
         ("timestamp", .num 1633456800),
         ("data", .obj [ ("keys", .arr [ .obj [ ("id", .str "message-id-789"),
                                                ("fromMe", .bool false),
                                                ("remoteId", .str "+1234567890") ] ]) ]) ]

/-- The `MessagesReactionEvent` payload of the test suite. -/
def messagesReactionSample : Json :=
  .obj [ ("event", .str "messages.reaction"),
         ("timestamp", .num 1633456810),
         ("data", .arr [ .obj [ ("key", .obj [ ("id", .str "message-id-123"),
                                               ("fromMe", .bool false),
                                               ("remoteId", .str "+1234567890") ]),
                                ("reaction", .obj [ ("text", .str "👍"),
                                                    ("key", .obj [ ("id", .str "message-id-123"),
                                                                   ("fromMe", .bool false),
                                                                   ("remoteId", .str "+1234567890") ]) ]) ] ]) ]

/-- The `MessageReceiptUpdateEvent` payload of the test suite. -/
def messageReceiptUpdateSample : Json :=
  .obj [ ("event", .str "message-receipt.update"),
         ("timestamp", .num 1633456815),
         ("data", .arr [ .obj [ ("key", .obj [ ("id", .str "message-id-xyz"),
                                               ("fromMe", .bool true),
                                               ("remoteId", .str "recipient@s.whatsapp.net") ]),
                                ("receipt", .obj [ ("userJid", .str "recipient@s.whatsapp.net"),
                                                   ("status", .str "read"),
                                                   ("t", .num 1633456815) ]) ] ]),
         ("sessionId", .str "session-1") ]

/-- The `MessageSentEvent` payload of the test suite. -/
def messageSentSample : Json :=
  .obj [ ("event", .str "message.sent"),
         ("timestamp", .num 1633456790),
         ("data", .obj [ ("key", .obj [ ("id", .str "message-id-456"),
                                        ("fromMe", .bool true),
                                        ("remoteId", .str "+1987654321") ]),
                         ("message", .obj [ ("conversation", .str "This is my reply.") ]),
                         ("status", .str "sent") ]) ]

/-- The `SessionStatusEvent` payload of the test suite. -/
def sessionStatusSample : Json :=
  .obj [ ("event", .str "session.status"),
         ("timestamp", .num 1633456789),
         ("data", .obj [ ("status", .str "connected"),
                         ("session_id", .str "session-id-123") ]) ]

/-- The `QrCodeUpdatedEvent` payload of the test suite. -/
def qrCodeUpdatedSample : Json :=
  .obj [ ("event", .str "qrcode.updated"),
         ("timestamp", .num 1633456780),
         ("data", .obj [ ("qr", .str "data:image/png;base64,..."),
                         ("session_id", .str "session-id-123") ]) ]

/-- All sixteen samples, ordered like the event-type enum. -/
def knownEventSamples : List Json :=
  [ chatsUpsertSample, chatsUpdateSample, chatsDeleteSample,
    groupsUpsertSample, groupsUpdateSample, groupParticipantsUpdateSample,
    contactsUpsertSample, contactsUpdateSample,
    messagesUpsertSample, messagesUpdateSample, messagesDeleteSample, messagesReactionSample,
    messageReceiptUpdateSample,
    messageSentSample, sessionStatusSample, qrCodeUpdatedSample ]

/-- Round-trip correctness of one envelope: serializing it with the
host JSON codec and parsing it back is the identity, and the webhook
handler on a correctly signed request returns the parsed envelope
unchanged. -/
def roundTripOk (e : Json) : Prop :=
  Json.parse (Json.stringify e) = some e ∧
  handleWebhook (makeReq e (some SECRET)) = Except.ok e

end Tests

/-! ## Helper lemmas -/

/-- The verifier rejects any signature value other than the configured
test secret. -/
lemma verify_false_of_ne (sig : Option String) (h : sig ≠ some Tests.SECRET) :
    Webhook.verifyWasenderWebhookSignature sig Tests.SECRET = false := by
  cases sig with
  | none => rfl
  | some s =>
    have hs : s ≠ "shh!" := fun he => h (by rw [he]; rfl)
    by_cases he : s = ""
    · simp [Webhook.verifyWasenderWebhookSignature, Tests.SECRET, he]
    · simp [Webhook.verifyWasenderWebhookSignature, Tests.SECRET, he, hs]

/-- On a body of the standard shape whose `event` field is a nonempty
string and whose `data` field is an object, the test-server decoder
returns that `event` value as the discriminant. -/
lemma normalisePayload_type_of_event (t : String) (fs : List (String × Json)) (ht : t ≠ "") :
    (Server.normalisePayload (Json.obj [("event", Json.str t), ("data", Json.obj fs)])).type
      = Json.str t := by
  simp [Server.normalisePayload, Json.getField, List.lookup, jsTruthy, isObjectLike, ht]

/-! ## Claims -/

/-- C1: for every header value H and configured secret S, the verifier
returns true exactly when H is present and equal to S with S nonempty,
and it fails closed (returns false) whenever H is absent or empty or S
is empty — including the case where both are empty and therefore
equal. -/
theorem verify_signature_exact_match_fail_closed :
    ∀ (H : Option String) (S : String),
      (Webhook.verifyWasenderWebhookSignature H S = true ↔ H = some S ∧ S ≠ "") ∧
      ((H = none ∨ H = some "" ∨ S = "") →
        Webhook.verifyWasenderWebhookSignature H S = false) := by
  intro H S
  cases H with
  | none =>
    refine ⟨by simp [Webhook.verifyWasenderWebhookSignature], fun _ => rfl⟩
  | some s =>
    constructor
    · constructor
      · intro hv
        by_cases h1 : s = ""
        · simp [Webhook.verifyWasenderWebhookSignature, h1] at hv
        · by_cases h2 : S = ""
          · simp [Webhook.verifyWasenderWebhookSignature, h1, h2] at hv
          · simp [Webhook.verifyWasenderWebhookSignature, h1, h2] at hv
            exact ⟨by rw [hv], h2⟩
      · rintro ⟨hH, hS⟩
        rw [Option.some.injEq] at hH
        subst hH
        simp [Webhook.verifyWasenderWebhookSignature, hS]
    · rintro (h | h | h)
      · exact absurd h (by simp)
      · rw [Option.some.injEq] at h
        simp [Webhook.verifyWasenderWebhookSignature, h]
      · simp [Webhook.verifyWasenderWebhookSignature, h]

/-- C1 witness: both inputs empty (and therefore equal) still yields
false. -/
theorem verify_signature_fail_closed_witness :
    Webhook.verifyWasenderWebhookSignature (some "") "" = false :=
  (verify_signature_exact_match_fail_closed (some "") "").2 (Or.inr (Or.inl rfl))

/-- C2: whenever the signature header of a request does not carry the
configured secret (missing or mismatched), the webhook handler rejects
with the unauthorized error and the body read `req.json()` is invoked
zero times. -/
theorem handle_webhook_unauthorized_skips_body_read :
    ∀ (req : Tests.MockRequest),
      Tests.getHeader req Webhook.WEBHOOK_SIGNATURE_HEADER ≠ some Tests.SECRET →
      Tests.handleWebhookTraced req = (Except.error "Invalid signature", 0) := by
  intro req h
  simp [Tests.handleWebhookTraced, verify_false_of_ne _ h]

/-- C2 witness: the request of the `rejects missing signature` test (no
signature header) is rejected without any body read. -/
theorem handle_webhook_unauthorized_witness :
    Tests.handleWebhookTraced
        (Tests.makeReq (Json.obj [("event", Json.str "something")]) none)
      = (Except.error "Invalid signature", 0) :=
  handle_webhook_unauthorized_skips_body_read _ (by decide)

/-- C7: the set of known event discriminants is exactly the sixteen
taxonomy members, without duplicates, and the copy in channel.ts lists
the same values. -/
theorem event_taxonomy_closed_sixteen :
    Webhook.knownEventTypes =
      [ "chats.upsert", "chats.update", "chats.delete",
        "groups.upsert", "groups.update", "group-participants.update",
        "contacts.upsert", "contacts.update",
        "messages.upsert", "messages.update", "messages.delete", "messages.reaction",
        "message-receipt.update",
        "message.sent", "session.status", "qrcode.updated" ] ∧
    Webhook.knownEventTypes.length = 16 ∧
    Webhook.knownEventTypes.Nodup ∧
    Channel.eventTypeValues = Webhook.knownEventTypes := by
  refine ⟨rfl, rfl, ?_, rfl⟩
  decide

/-- C8: the signature verifier is total (it yields a boolean on every
input, never an exception) and deterministic (equal inputs give equal
results). -/
theorem verify_total_deterministic :
    ∀ (H : Option String) (S : String),
      (Webhook.verifyWasenderWebhookSignature H S = true ∨
       Webhook.verifyWasenderWebhookSignature H S = false) ∧
      (∀ (H2 : Option String) (S2 : String), H = H2 → S = S2 →
        Webhook.verifyWasenderWebhookSignature H S =
          Webhook.verifyWasenderWebhookSignature H2 S2) := by
  intro H S
  refine ⟨?_, fun H2 S2 h1 h2 => by rw [h1, h2]⟩
  cases hb : Webhook.verifyWasenderWebhookSignature H S
  · exact Or.inr rfl
  · exact Or.inl rfl

/-- C8 witness: determinism instantiated at a concrete repeated call. -/
theorem verify_total_deterministic_witness :
    Webhook.verifyWasenderWebhookSignature (some "abc") "abc" =
      Webhook.verifyWasenderWebhookSignature (some "abc") "abc" :=
  (verify_total_deterministic (some "abc") "abc").2 (some "abc") "abc" rfl rfl

/-- C9: the three copies of the signature verifier (webhook.ts v0.3.2,
the v0.1.0 copy in channel.ts, and the test-server verifySignature)
compute the same boolean function of header value and secret. -/
theorem verifier_copies_agree :
    ∀ (H : Option String) (S : String),
      Webhook.verifyWasenderWebhookSignature H S = Channel.verifyWasenderWebhookSignature H S ∧
      Webhook.verifyWasenderWebhookSignature H S = Server.verifySignature H S :=
  fun _ _ => ⟨rfl, rfl⟩

/-- C10: on a correctly signed request the webhook handler returns the
parsed JSON body completely unchanged, whatever its shape — in
particular a body with no discriminant field, or with a payload of the
wrong shape for its discriminant, is still returned successfully. -/
theorem handle_webhook_returns_body_unchanged :
    ∀ (body : Json),
      Tests.handleWebhook (Tests.makeReq body (some Tests.SECRET)) = Except.ok body :=
  fun _ => rfl

set_option maxRecDepth 100000 in
/-- C3: the sixteen sample envelopes cover exactly the sixteen known
discriminants, and for each of them JSON-encoding followed by parsing
and the webhook handler reproduces the original envelope — hence its
discriminant, timestamp, session id and data — under deep equality. -/
theorem known_event_kinds_json_roundtrip :
    Tests.knownEventSamples.map (fun e => e.getField "event")
        = Webhook.knownEventTypes.map (fun t => some (Json.str t)) ∧
    Tests.roundTripOk Tests.chatsUpsertSample ∧
    Tests.roundTripOk Tests.chatsUpdateSample ∧
    Tests.roundTripOk Tests.chatsDeleteSample ∧
    Tests.roundTripOk Tests.groupsUpsertSample ∧
    Tests.roundTripOk Tests.groupsUpdateSample ∧
    Tests.roundTripOk Tests.groupParticipantsUpdateSample ∧
    Tests.roundTripOk Tests.contactsUpsertSample ∧
    Tests.roundTripOk Tests.contactsUpdateSample ∧
    Tests.roundTripOk Tests.messagesUpsertSample ∧
    Tests.roundTripOk Tests.messagesUpdateSample ∧
    Tests.roundTripOk Tests.messagesDeleteSample ∧
    Tests.roundTripOk Tests.messagesReactionSample ∧
    Tests.roundTripOk Tests.messageReceiptUpdateSample ∧
    Tests.roundTripOk Tests.messageSentSample ∧
    Tests.roundTripOk Tests.sessionStatusSample ∧
    Tests.roundTripOk Tests.qrCodeUpdatedSample :=
  ⟨rfl, ⟨rfl, rfl⟩, ⟨rfl, rfl⟩, ⟨rfl, rfl⟩, ⟨rfl, rfl⟩, ⟨rfl, rfl⟩, ⟨rfl, rfl⟩,
   ⟨rfl, rfl⟩, ⟨rfl, rfl⟩, ⟨rfl, rfl⟩, ⟨rfl, rfl⟩, ⟨rfl, rfl⟩, ⟨rfl, rfl⟩,
   ⟨rfl, rfl⟩, ⟨rfl, rfl⟩, ⟨rfl, rfl⟩, ⟨rfl, rfl⟩⟩

/-- A body carrying both a `type` field and an `event` field, with an
object `data` payload. -/
def dualDiscriminantBody : Json :=
  Json.obj [ ("type", Json.str "session.status"),
             ("event", Json.str "messages.upsert"),
             ("data", Json.obj []) ]

/-- C4 counterexample: the test-server decoder takes its discriminant
from the body's `event` field, not from `type` — on a body carrying
both, the decoded discriminant is the `event` value and differs from
the `type` value. -/
theorem discriminant_not_under_type_field_cex :
    (Server.normalisePayload dualDiscriminantBody).type = Json.str "messages.upsert" ∧
    dualDiscriminantBody.getField "type" = some (Json.str "session.status") ∧
    (Server.normalisePayload dualDiscriminantBody).type ≠ Json.str "session.status" := by
  refine ⟨rfl, rfl, fun h => ?_⟩
  have h2 : Json.str "messages.upsert" = Json.str "session.status" := h
  injection h2 with h3
  exact absurd h3 (by decide)

/-- C4 amended: the v0.3.2 webhook module declares the discriminant
under `type`, but the channel-module envelope, the shipped jest
payloads and the test-server decoder use the field `event`; in
particular the test-server decoder reads the discriminant of every
standard-shape body from its `event` field. -/
theorem discriminant_read_from_event_field :
    ∀ (t : String) (fs : List (String × Json)), t ≠ "" →
      (Server.normalisePayload (Json.obj [("event", Json.str t), ("data", Json.obj fs)])).type
        = Json.str t :=
  fun t fs ht => normalisePayload_type_of_event t fs ht

/-- C4 amended witness: the `session.status` discriminant read from the
`event` field of a concrete body. -/
theorem discriminant_read_from_event_field_witness :
    (Server.normalisePayload
        (Json.obj [ ("event", Json.str "session.status"),
                    ("data", Json.obj [("status", Json.str "connected")]) ])).type
      = Json.str "session.status" :=
  discriminant_read_from_event_field "session.status" [("status", Json.str "connected")]
    (by decide)

/-- The scenario-3 body: correct shape, `session.status` discriminant,
single-object data payload. -/
def sessionStatusBody : Json :=
  Json.obj [ ("event", Json.str "session.status"),
             ("data", Json.obj [("status", Json.str "connected")]) ]

/-- C5 counterexample: the test-server decoder array-normalizes every
payload, so the `session.status` event's single-object data comes back
wrapped in a one-element array, not as the bare object the claim
states. -/
theorem single_object_payload_wrapped_cex :
    (Server.normalisePayload sessionStatusBody).data
        = [Json.obj [("status", Json.str "connected")]] ∧
    sessionStatusBody.getField "data" = some (Json.obj [("status", Json.str "connected")]) ∧
    Json.arr (Server.normalisePayload sessionStatusBody).data
        ≠ Json.obj [("status", Json.str "connected")] := by
  refine ⟨rfl, rfl, fun h => ?_⟩
  have h2 : Json.arr [Json.obj [("status", Json.str "connected")]]
      = Json.obj [("status", Json.str "connected")] := h
  exact Json.noConfusion h2

/-- C5 amended: through the SDK webhook handler the data payload passes
through unchanged, so the single-object kinds keep their bare object
payload (object-typed, not array-typed); the test-server decoder
instead always array-normalizes. -/
theorem single_object_payloads_amended :
    (Tests.handleWebhook (Tests.makeReq Tests.sessionStatusSample (some Tests.SECRET))
        = Except.ok Tests.sessionStatusSample ∧
      isArrayOpt (Tests.sessionStatusSample.getField "data") = false ∧
      isObjectLike (Tests.sessionStatusSample.getField "data") = true) ∧
    (Tests.handleWebhook (Tests.makeReq Tests.qrCodeUpdatedSample (some Tests.SECRET))
        = Except.ok Tests.qrCodeUpdatedSample ∧
      isArrayOpt (Tests.qrCodeUpdatedSample.getField "data") = false ∧
      isObjectLike (Tests.qrCodeUpdatedSample.getField "data") = true) ∧
    (Tests.handleWebhook (Tests.makeReq Tests.messagesUpsertSample (some Tests.SECRET))
        = Except.ok Tests.messagesUpsertSample ∧
      isArrayOpt (Tests.messagesUpsertSample.getField "data") = false ∧
      isObjectLike (Tests.messagesUpsertSample.getField "data") = true) ∧
    (Tests.handleWebhook (Tests.makeReq Tests.messageSentSample (some Tests.SECRET))
        = Except.ok Tests.messageSentSample ∧
      isArrayOpt (Tests.messageSentSample.getField "data") = false ∧
      isObjectLike (Tests.messageSentSample.getField "data") = true) ∧
    (Tests.handleWebhook (Tests.makeReq Tests.groupParticipantsUpdateSample (some Tests.SECRET))
        = Except.ok Tests.groupParticipantsUpdateSample ∧
      isArrayOpt (Tests.groupParticipantsUpdateSample.getField "data") = false ∧
      isObjectLike (Tests.groupParticipantsUpdateSample.getField "data") = true) ∧
    (Server.normalisePayload sessionStatusBody).data
        = [Json.obj [("status", Json.str "connected")]] :=
  ⟨⟨rfl, rfl, rfl⟩, ⟨rfl, rfl, rfl⟩, ⟨rfl, rfl, rfl⟩, ⟨rfl, rfl, rfl⟩, ⟨rfl, rfl, rfl⟩, rfl⟩

/-- C6: a correctly signed, valid-JSON body whose discriminant is not
in the known taxonomy is decoded without error: the SDK handler returns
it unchanged with the unrecognized discriminant intact, and the
test-server decoder likewise reports exactly the unrecognized string as
the discriminant of a standard-shape body. -/
theorem unrecognized_discriminant_passthrough :
    ∀ (t : String) (d : Json),
      t ∉ Webhook.knownEventTypes →
      (Tests.handleWebhook
          (Tests.makeReq (Json.obj [("event", Json.str t), ("data", d)]) (some Tests.SECRET))
         = Except.ok (Json.obj [("event", Json.str t), ("data", d)]) ∧
       (Json.obj [("event", Json.str t), ("data", d)]).getField "event"
         = some (Json.str t)) ∧
      (t ≠ "" → ∀ (fs : List (String × Json)),
        (Server.normalisePayload (Json.obj [("event", Json.str t), ("data", Json.obj fs)])).type
          = Json.str t) := by
  intro t d _
  refine ⟨⟨rfl, ?_⟩, fun ht fs => normalisePayload_type_of_event t fs ht⟩
  simp [Json.getField, List.lookup]

/-- C6 witness: a concrete unrecognized discriminant passes through
both decoders intact. -/
theorem unrecognized_discriminant_passthrough_witness :
    Tests.handleWebhook
        (Tests.makeReq (Json.obj [("event", Json.str "totally.new-kind"), ("data", Json.obj [])])
          (some Tests.SECRET))
      = Except.ok (Json.obj [("event", Json.str "totally.new-kind"), ("data", Json.obj [])]) ∧
    (Server.normalisePayload
        (Json.obj [("event", Json.str "totally.new-kind"), ("data", Json.obj [])])).type
      = Json.str "totally.new-kind" :=
  ⟨(unrecognized_discriminant_passthrough "totally.new-kind" (Json.obj []) (by decide)).1.1,
   (unrecognized_discriminant_passthrough "totally.new-kind" (Json.obj []) (by decide)).2
     (by decide) []⟩
